import Mathlib

/-!
Shallow embedding of `src/master/redis/connection.rs` (libmcaptcha), the
typed command-dispatch layer over a Redis instance carrying the mCaptcha
Redis module, together with proofs about the capability-verification
protocol and the five domain command wrappers.
-/

namespace Mcaptcha

/-- Mirror of `redis::Value` (the generic response value of the redis crate), in
the shape consumed by `connection.rs`: the `COMMAND INFO` responses are
pattern-matched at this type (`Value::Bulk`, `Value::Nil`). -/
inductive Value where
  | Nil : Value
  | Int : Int → Value
  | Data : String → Value
  | Bulk : List Value → Value
  | Status : String → Value
  | Okay : Value

/-- Mirror of the `crate::errors::CaptchaError` variants used by
`connection.rs` (`MCaptchaRedisModuleIsNotLoaded`,
`MCaptchaRediSModuleCommandNotFound`, `MCaptchaRedisModuleError`).
Modelled from the spec: `errors.rs` is not under `src/`; the error
taxonomy of the spec (§7) additionally names `ConnectionError` (network connection
cannot be established), `StoreError` (generic transport failure, wrapping
the error detail of the transport itself) and `DeserializationError` (structured
payload could not be parsed), which we add as the transport-side variants. -/
inductive CaptchaError where
  | MCaptchaRedisModuleIsNotLoaded : CaptchaError
  | MCaptchaRediSModuleCommandNotFound : String → CaptchaError
  | MCaptchaRedisModuleError : CaptchaError
  | ConnectionError : String → CaptchaError
  | StoreError : String → CaptchaError
  | DeserializationError : CaptchaError
deriving DecidableEq

/-- Result of evaluating a Rust function that may return
`Ok`, return `Err`, or panic (`.unwrap()` on a failed `Result` or
`Option`). `connection.rs` uses `.unwrap()` in `is_module_loaded` and in
`add_visitor`, so a panic outcome is reachable and must be distinguished
from a returned error. -/
inductive Outcome (α : Type) where
  | ok : α → Outcome α
  | err : CaptchaError → Outcome α
  | panic : Outcome α
deriving DecidableEq

/-- A wire command as built by `redis::cmd(name).arg(&[...])`: the
command name plus its (string) arguments. -/
structure Cmd where
  name : String
  args : List String
deriving DecidableEq

/-- Modelled from the spec: `crate::redis::RedisConnection` (not under
`src/`) exposes a generic `exec` issuing one command and decoding the
response at the type requested by the caller; transport and protocol-decode
failures surface as errors from the command call itself (§4.1, §4.3,
`StoreError` taxonomy). `connection.rs` instantiates `exec` at exactly
five result types — `Vec<Vec<String>>` (MODULE LIST), `Value`
(COMMAND INFO), `String` (ADD_VISITOR), `usize` (CAPTCHA_EXISTS, GET)
and `()` (ADD_CAPTCHA, DELETE_CAPTCHA) — so the connection is embedded
as one response oracle per instantiated type. -/
structure RedisConnection where
  execVecVecString : Cmd → Except CaptchaError (List (List String))
  execValue : Cmd → Except CaptchaError Value
  execString : Cmd → Except CaptchaError String
  execUsize : Cmd → Except CaptchaError Nat
  execUnit : Cmd → Except CaptchaError Unit

/-- `const GET: &str = "MCAPTCHA_CACHE.GET";` -/
def GET : String := "MCAPTCHA_CACHE.GET"

/-- `const ADD_VISITOR: &str = "MCAPTCHA_CACHE.ADD_VISITOR";` -/
def ADD_VISITOR : String := "MCAPTCHA_CACHE.ADD_VISITOR"

/-- `const DEL: &str = "MCAPTCHA_CACHE.DELETE_CAPTCHA";` -/
def DEL : String := "MCAPTCHA_CACHE.DELETE_CAPTCHA"

/-- `const ADD_CAPTCHA: &str = "MCAPTCHA_CACHE.ADD_CAPTCHA";` -/
def ADD_CAPTCHA : String := "MCAPTCHA_CACHE.ADD_CAPTCHA"

/-- `const CAPTCHA_EXISTS: &str = "MCAPTCHA_CACHE.CAPTCHA_EXISTS";` -/
def CAPTCHA_EXISTS : String := "MCAPTCHA_CACHE.CAPTCHA_EXISTS"

/-- `const MODULE_NAME: &str = "mcaptcha_cahce";` -/
def MODULE_NAME : String := "mcaptcha_cahce"

/-- First loop of `is_module_loaded`: for each returned module table,
`list.iter().find(|module| module.as_str() == MODULE_NAME)`; on `None`
the function returns `Err(CaptchaError::MCaptchaRedisModuleIsNotLoaded)`,
otherwise it continues with the next table. -/
def moduleListCheck : List (List String) → Except CaptchaError Unit
  | [] => .ok ()
  | list :: rest =>
    match list.find? (fun module => module == MODULE_NAME) with
    | some _ => moduleListCheck rest
    | none => .error .MCaptchaRedisModuleIsNotLoaded

/-- Second loop of `is_module_loaded`: for each catalog command name,
`exec(redis::cmd("COMMAND").arg(&["INFO", cmd])).await.unwrap()` (a
transport failure panics), then on `Value::Bulk(mut val)` inspect
`val.pop()` (the last element): `Some(Value::Nil)` means the command is
missing and yields `Err(MCaptchaRediSModuleCommandNotFound(cmd))`; any
other shape falls through to the next command. -/
def commandsCheck (c : RedisConnection) : List String → Outcome Unit
  | [] => .ok ()
  | cmd :: rest =>
    match c.execValue ⟨"COMMAND", ["INFO", cmd]⟩ with
    | .error _ => .panic
    | .ok (.Bulk val) =>
      match val.getLast? with
      | some .Nil => .err (.MCaptchaRediSModuleCommandNotFound cmd)
      | _ => commandsCheck c rest
    | .ok _ => commandsCheck c rest

/-- `MCaptchaRedisConnection::is_module_loaded`: run
`MODULE LIST` (decoded as `Vec<Vec<String>>`, `.unwrap()` so a transport
failure panics), check every module table for `MODULE_NAME`, then check
the five catalog commands `[ADD_VISITOR, ADD_CAPTCHA, DEL,
CAPTCHA_EXISTS, GET]` via `COMMAND INFO`. -/
def is_module_loaded (c : RedisConnection) : Outcome Unit :=
  match c.execVecVecString ⟨"MODULE", ["LIST"]⟩ with
  | .error _ => .panic
  | .ok modules =>
    match moduleListCheck modules with
    | .error e => .err e
    | .ok _ => commandsCheck c [ADD_VISITOR, ADD_CAPTCHA, DEL, CAPTCHA_EXISTS, GET]

/-- Modelled from the spec: `AddVisitorRequest { id: string }` (§6); the
AddVisitor message tuple struct of the source (`crate::master::messages`,
not under `src/`) carries the captcha identifier as its field `0`. -/
structure AddVisitor where
  id : String

/-- Modelled from the spec: `VisitorAddResult` — a "deserialized
structured result describing updated counter/difficulty state" (§3);
the `AddVisitorResult` struct lives outside `src/`. -/
structure AddVisitorResult where
  duration : Nat
  difficulty_factor : Nat
deriving DecidableEq

/-- Modelled from the spec: the CAPTCHA configuration is an "opaque
serializable config" produced by an external collaborator (§3, §6); its
actual type (`crate::master` MCaptcha/CreateMCaptcha) is outside `src/`. -/
structure MCaptcha where
  config : String

/-- Modelled from the spec: `RegisterRequest { id: string, config:
<opaque serializable config> }` (§6); the AddSite message
struct of the source lives outside `src/`. -/
structure AddSite where
  id : String
  mcaptcha : MCaptcha

/-- `MCaptchaRedisConnection::add_visitor`: issue
`redis::cmd(ADD_VISITOR).arg(&[msg.0])`, decode the response as `String`
(a transport failure propagates via `?`), then
`serde_json::from_str(&res).unwrap()` — the serde parse (a collaborator
outside `src/`, passed here as `from_str`) panics on failure — and
return `Ok(Some(res))`. -/
def add_visitor (c : RedisConnection)
    (from_str : String → Option AddVisitorResult) (msg : AddVisitor) :
    Outcome (Option AddVisitorResult) :=
  match c.execString ⟨ADD_VISITOR, [msg.id]⟩ with
  | .error e => .err e
  | .ok res =>
    match from_str res with
    | none => .panic
    | some r => .ok (some r)

/-- `MCaptchaRedisConnection::add_mcaptcha`: serialize the config
(`serde_json::to_string(&captcha).unwrap()`, the `CreateMCaptcha`
conversion and serialization collaborator outside `src/` passed here as
the total function `to_string`, §6), then issue
`redis::cmd(ADD_CAPTCHA).arg(&[name, payload])` and discard the
response, propagating transport failures via `?`. -/
def add_mcaptcha (c : RedisConnection) (to_string : MCaptcha → String)
    (msg : AddSite) : Except CaptchaError Unit :=
  let name := msg.id
  let payload := to_string msg.mcaptcha
  match c.execUnit ⟨ADD_CAPTCHA, [name, payload]⟩ with
  | .error e => .error e
  | .ok _ => .ok ()

/-- `MCaptchaRedisConnection::check_captcha_exists`: issue
`redis::cmd(CAPTCHA_EXISTS).arg(&[captcha])` decoded as `usize`
(transport failures propagate via `?`); `1` maps to `Ok(false)`, `0` to
`Ok(true)`, and anything else logs
`"mCaptcha redis module responded with {exists} when for {CAPTCHA_EXISTS}"`
via `log::error!` and returns `Err(MCaptchaRedisModuleError)`. The first
component of the result collects the emitted log lines. -/
def check_captcha_exists (c : RedisConnection) (captcha : String) :
    List String × Except CaptchaError Bool :=
  match c.execUsize ⟨CAPTCHA_EXISTS, [captcha]⟩ with
  | .error e => ([], .error e)
  | .ok ex =>
    if ex = 1 then ([], .ok false)
    else if ex = 0 then ([], .ok true)
    else
      (["mCaptcha redis module responded with " ++ toString ex ++
          " when for " ++ CAPTCHA_EXISTS],
        .error .MCaptchaRedisModuleError)

/-- `MCaptchaRedisConnection::delete_captcha`: issue
`redis::cmd(DEL).arg(&[captcha])`, discard the response, propagate
transport failures via `?`. -/
def delete_captcha (c : RedisConnection) (captcha : String) :
    Except CaptchaError Unit :=
  match c.execUnit ⟨DEL, [captcha]⟩ with
  | .error e => .error e
  | .ok _ => .ok ()

/-- `MCaptchaRedisConnection::get_visitors`: issue
`redis::cmd(GET).arg(&[captcha])` decoded as `usize`, return the count,
propagating transport failures via `?`. -/
def get_visitors (c : RedisConnection) (captcha : String) :
    Except CaptchaError Nat :=
  match c.execUsize ⟨GET, [captcha]⟩ with
  | .error e => .error e
  | .ok visitors => .ok visitors

/-- `pub struct MCaptchaRedis(Redis)`; the underlying `Redis` factory
(outside `src/`, §4.1) is represented by the connection it leases. -/
structure MCaptchaRedis where
  redis : RedisConnection

/-- `MCaptchaRedis::get_client`: wrap a leased connection; per §4.1 this
accessor never fails. -/
def MCaptchaRedis.get_client (m : MCaptchaRedis) : RedisConnection :=
  m.redis

/-- `MCaptchaRedis::new`: `Redis::new(config)` (a collaborator outside
`src/` — Modelled from the spec: it fails with `ConnectionError` when
the network connection cannot be established, §4.1 — its result is the
`redis_new` argument, propagated via `?`), then
`m.get_client().is_module_loaded().await?` before `Ok(m)`. -/
def MCaptchaRedis.new (redis_new : Except CaptchaError RedisConnection) :
    Outcome MCaptchaRedis :=
  match redis_new with
  | .error e => .err e
  | .ok redis =>
    let m : MCaptchaRedis := ⟨redis⟩
    match is_module_loaded m.get_client with
    | .panic => .panic
    | .err e => .err e
    | .ok _ => .ok m

/-- Response shape that the command loop of `is_module_loaded` treats as
"command missing": a `Value::Bulk` whose popped last element is
`Value::Nil` (all other shapes fall through as "command exists"). -/
def popIsNil : Value → Bool
  | .Bulk val =>
    match val.getLast? with
    | some .Nil => true
    | _ => false
  | _ => false

theorem moduleListCheck_ok_iff (l : List (List String)) :
    moduleListCheck l = .ok () ↔ ∀ lst ∈ l, MODULE_NAME ∈ lst := by
  induction l with
  | nil => simp [moduleListCheck]
  | cons x xs ih =>
    simp only [moduleListCheck]
    cases h : x.find? (fun module => module == MODULE_NAME) with
    | none =>
      have hx : MODULE_NAME ∉ x := by
        intro hm
        have := List.find?_eq_none.mp h MODULE_NAME hm
        simp at this
      constructor
      · intro hcontra; exact Except.noConfusion hcontra
      · intro hall; exact absurd (hall x (List.mem_cons_self x xs)) hx
    | some m =>
      have hmx : MODULE_NAME ∈ x := by
        have h1 := List.find?_some h
        have h2 := List.mem_of_find?_eq_some h
        rw [eq_of_beq h1] at h2
        exact h2
      simp [ih, hmx]

theorem moduleListCheck_cases (l : List (List String)) :
    moduleListCheck l = .ok () ∨
      moduleListCheck l = .error .MCaptchaRedisModuleIsNotLoaded := by
  induction l with
  | nil => exact Or.inl rfl
  | cons x xs ih =>
    simp only [moduleListCheck]
    cases x.find? (fun module => module == MODULE_NAME) with
    | none => exact Or.inr rfl
    | some m => exact ih

theorem moduleListCheck_err_iff (l : List (List String)) :
    moduleListCheck l = .error .MCaptchaRedisModuleIsNotLoaded ↔
      ∃ lst ∈ l, MODULE_NAME ∉ lst := by
  rcases moduleListCheck_cases l with h | h <;> rw [h]
  · constructor
    · intro hcontra; exact Except.noConfusion hcontra
    · rintro ⟨lst, hmem, hnot⟩
      exact absurd ((moduleListCheck_ok_iff l).mp h lst hmem) hnot
  · constructor
    · intro _
      have hne : ¬ ∀ lst ∈ l, MODULE_NAME ∈ lst := by
        intro hall
        have hok := (moduleListCheck_ok_iff l).mpr hall
        rw [h] at hok
        exact Except.noConfusion hok
      push_neg at hne
      exact hne
    · intro _; rfl

theorem commandsCheck_cons (c : RedisConnection) (cmd : String)
    (rest : List String) (v : Value)
    (h : c.execValue ⟨"COMMAND", ["INFO", cmd]⟩ = .ok v) :
    commandsCheck c (cmd :: rest) =
      if popIsNil v then .err (.MCaptchaRediSModuleCommandNotFound cmd)
      else commandsCheck c rest := by
  cases v with
  | Bulk val =>
    simp only [commandsCheck, h]
    cases hl : val.getLast? with
    | none => simp [popIsNil, hl]
    | some w => cases w <;> simp [popIsNil, hl]
  | Nil => simp [commandsCheck, h, popIsNil]
  | Int i => simp [commandsCheck, h, popIsNil]
  | Data s => simp [commandsCheck, h, popIsNil]
  | Status s => simp [commandsCheck, h, popIsNil]
  | Okay => simp [commandsCheck, h, popIsNil]

theorem commandsCheck_cons_panic (c : RedisConnection) (cmd : String)
    (rest : List String) (e : CaptchaError)
    (h : c.execValue ⟨"COMMAND", ["INFO", cmd]⟩ = .error e) :
    commandsCheck c (cmd :: rest) = .panic := by
  simp [commandsCheck, h]

theorem commandsCheck_eq_find (c : RedisConnection) (f : String → Value)
    (hf : ∀ s, c.execValue ⟨"COMMAND", ["INFO", s]⟩ = .ok (f s)) :
    ∀ l : List String,
      commandsCheck c l =
        match l.find? (fun cmd => popIsNil (f cmd)) with
        | some cmd => .err (.MCaptchaRediSModuleCommandNotFound cmd)
        | none => .ok () := by
  intro l
  induction l with
  | nil => rfl
  | cons cmd rest ih =>
    rw [commandsCheck_cons c cmd rest (f cmd) (hf cmd)]
    by_cases hp : popIsNil (f cmd)
    · have h2 : List.find? (fun s => popIsNil (f s)) (cmd :: rest) = some cmd :=
        List.find?_cons_of_pos rest hp
      rw [if_pos hp, h2]
    · have h2 : List.find? (fun s => popIsNil (f s)) (cmd :: rest) =
          List.find? (fun s => popIsNil (f s)) rest :=
        List.find?_cons_of_neg rest hp
      rw [if_neg hp, h2]
      exact ih

theorem commandsCheck_err_shape (c : RedisConnection) (l : List String) :
    ∀ e : CaptchaError, commandsCheck c l = .err e →
      ∃ name ∈ l, e = .MCaptchaRediSModuleCommandNotFound name := by
  induction l with
  | nil => intro e h; exact Outcome.noConfusion h
  | cons cmd rest ih =>
    intro e h
    cases hex : c.execValue ⟨"COMMAND", ["INFO", cmd]⟩ with
    | error e2 =>
      rw [commandsCheck_cons_panic c cmd rest e2 hex] at h
      exact Outcome.noConfusion h
    | ok v =>
      rw [commandsCheck_cons c cmd rest v hex] at h
      by_cases hp : popIsNil v
      · rw [if_pos hp] at h
        injection h with h2
        exact ⟨cmd, List.mem_cons_self cmd rest, h2.symm⟩
      · rw [if_neg hp] at h
        obtain ⟨name, hmem, he⟩ := ih e h
        exact ⟨name, List.mem_cons_of_mem cmd hmem, he⟩

theorem is_module_loaded_eq (c : RedisConnection)
    (mods : List (List String))
    (h : c.execVecVecString ⟨"MODULE", ["LIST"]⟩ = .ok mods) :
    is_module_loaded c =
      match moduleListCheck mods with
      | .error e => .err e
      | .ok _ =>
          commandsCheck c [ADD_VISITOR, ADD_CAPTCHA, DEL, CAPTCHA_EXISTS, GET] := by
  simp only [is_module_loaded, h]

theorem is_module_loaded_panic_of_list_error (c : RedisConnection)
    (e : CaptchaError)
    (h : c.execVecVecString ⟨"MODULE", ["LIST"]⟩ = .error e) :
    is_module_loaded c = .panic := by
  simp only [is_module_loaded, h]

theorem is_module_loaded_err_cases (c : RedisConnection) (r : CaptchaError)
    (h : is_module_loaded c = .err r) :
    r = .MCaptchaRedisModuleIsNotLoaded ∨
      ∃ name, r = .MCaptchaRediSModuleCommandNotFound name := by
  cases hex : c.execVecVecString ⟨"MODULE", ["LIST"]⟩ with
  | error e =>
    rw [is_module_loaded_panic_of_list_error c e hex] at h
    exact Outcome.noConfusion h
  | ok mods =>
    rw [is_module_loaded_eq c mods hex] at h
    rcases moduleListCheck_cases mods with hc | hc <;> simp only [hc] at h
    · obtain ⟨name, _, he⟩ := commandsCheck_err_shape c _ r h
      exact Or.inr ⟨name, he⟩
    · left
      injection h with h2
      exact h2.symm

theorem find?_first_iff {α : Type} (p : α → Bool) (l : List α) (a : α) :
    l.find? p = some a ↔
      ∃ l₁ l₂, l = l₁ ++ a :: l₂ ∧ (∀ x ∈ l₁, p x = false) ∧ p a = true := by
  induction l with
  | nil =>
    constructor
    · intro h; exact Option.noConfusion h
    · rintro ⟨l₁, l₂, h, _, _⟩; exact absurd h (by simp)
  | cons x xs ih =>
    by_cases hp : p x
    · rw [List.find?_cons_of_pos _ hp]
      constructor
      · intro h
        injection h with h2
        subst h2
        exact ⟨[], xs, rfl, by simp, hp⟩
      · rintro ⟨l₁, l₂, heq, hall, hpa⟩
        cases l₁ with
        | nil =>
          simp only [List.nil_append, List.cons.injEq] at heq
          rw [heq.1]
        | cons y ys =>
          simp only [List.cons_append, List.cons.injEq] at heq
          have hy := hall y (List.mem_cons_self y ys)
          rw [← heq.1, hp] at hy
          exact Bool.noConfusion hy
    · rw [List.find?_cons_of_neg _ hp]
      rw [ih]
      constructor
      · rintro ⟨l₁, l₂, heq, hall, hpa⟩
        refine ⟨x :: l₁, l₂, by simp [heq], ?_, hpa⟩
        intro z hz
        rcases List.mem_cons.mp hz with rfl | hz2
        · exact Bool.not_eq_true _ ▸ hp
        · exact hall z hz2
      · rintro ⟨l₁, l₂, heq, hall, hpa⟩
        cases l₁ with
        | nil =>
          simp only [List.nil_append, List.cons.injEq] at heq
          rw [← heq.1] at hpa
          exact absurd hpa hp
        | cons y ys =>
          simp only [List.cons_append, List.cons.injEq] at heq
          refine ⟨ys, l₂, heq.2, ?_, hpa⟩
          intro z hz
          exact hall z (List.mem_cons_of_mem y hz)

/-- Builds a connection whose typed response oracles ignore the command
and return fixed responses; used to evaluate the wrappers at concrete
inputs. -/
def constConn (ml : Except CaptchaError (List (List String)))
    (ci : Except CaptchaError Value) (s : Except CaptchaError String)
    (n : Except CaptchaError Nat) (u : Except CaptchaError Unit) :
    RedisConnection where
  execVecVecString := fun _ => ml
  execValue := fun _ => ci
  execString := fun _ => s
  execUsize := fun _ => n
  execUnit := fun _ => u

/-- A store on which capability verification succeeds: one module table
containing `MODULE_NAME`, and every COMMAND INFO response is `Okay`. -/
def okConn : RedisConnection :=
  constConn (.ok [ [ MODULE_NAME ] ]) (.ok .Okay) (.ok "") (.ok 0) (.ok ())

/-- A store on which every command fails with a transport error. -/
def errConn : RedisConnection :=
  constConn (.error (.StoreError "boom")) (.error (.StoreError "boom"))
    (.error (.StoreError "boom")) (.error (.StoreError "boom"))
    (.error (.StoreError "boom"))

/-- C1: `check_captcha_exists` maps a store response of integer `1` to
`Ok(false)` ("does not exist"), `0` to `Ok(true)` ("exists"), and any
other integer to the returned error `MCaptchaRedisModuleError` after
logging the offending value and the command name — never a panic and
never a coerced boolean. -/
theorem check_captcha_exists_policy (c : RedisConnection) (captcha : String) :
    (c.execUsize ⟨CAPTCHA_EXISTS, [captcha]⟩ = .ok 1 →
      check_captcha_exists c captcha = ([], .ok false)) ∧
    (c.execUsize ⟨CAPTCHA_EXISTS, [captcha]⟩ = .ok 0 →
      check_captcha_exists c captcha = ([], .ok true)) ∧
    (∀ n : Nat, c.execUsize ⟨CAPTCHA_EXISTS, [captcha]⟩ = .ok n →
      n ≠ 0 → n ≠ 1 →
      check_captcha_exists c captcha =
        (["mCaptcha redis module responded with " ++ toString n ++
            " when for " ++ CAPTCHA_EXISTS],
          .error .MCaptchaRedisModuleError)) := by
  refine ⟨fun h => ?_, fun h => ?_, fun n h hn0 hn1 => ?_⟩
  · simp [check_captcha_exists, h]
  · simp [check_captcha_exists, h]
  · simp [check_captcha_exists, h, hn0, hn1]

/-- Concrete evaluations of the existence policy: responses 5, 1 and 0. -/
theorem check_captcha_exists_policy_witness :
    check_captcha_exists (constConn (.ok []) (.ok .Okay) (.ok "") (.ok 5) (.ok ())) "a" =
      (["mCaptcha redis module responded with " ++ toString 5 ++
          " when for " ++ CAPTCHA_EXISTS],
        .error .MCaptchaRedisModuleError) ∧
    check_captcha_exists (constConn (.ok []) (.ok .Okay) (.ok "") (.ok 1) (.ok ())) "a" =
      ([], .ok false) ∧
    check_captcha_exists (constConn (.ok []) (.ok .Okay) (.ok "") (.ok 0) (.ok ())) "a" =
      ([], .ok true) :=
  ⟨(check_captcha_exists_policy
      (constConn (.ok []) (.ok .Okay) (.ok "") (.ok 5) (.ok ())) "a").2.2 5 rfl
      (by decide) (by decide),
   (check_captcha_exists_policy
      (constConn (.ok []) (.ok .Okay) (.ok "") (.ok 1) (.ok ())) "a").1 rfl,
   (check_captcha_exists_policy
      (constConn (.ok []) (.ok .Okay) (.ok "") (.ok 0) (.ok ())) "a").2.1 rfl⟩

/-- C2: with the module listing of the store decoded as `mods`, capability
verification fails with `MCaptchaRedisModuleIsNotLoaded` if and only if
at least one returned listing record lacks an entry exactly string-equal
to `MODULE_NAME`. -/
theorem is_module_loaded_notloaded_iff (c : RedisConnection)
    (mods : List (List String))
    (h : c.execVecVecString ⟨"MODULE", ["LIST"]⟩ = .ok mods) :
    is_module_loaded c = .err .MCaptchaRedisModuleIsNotLoaded ↔
      ∃ lst ∈ mods, MODULE_NAME ∉ lst := by
  rw [is_module_loaded_eq c mods h]
  rcases moduleListCheck_cases mods with hc | hc <;> simp only [hc]
  · constructor
    · intro hcc
      obtain ⟨name, _, he⟩ := commandsCheck_err_shape c _ _ hcc
      exact CaptchaError.noConfusion he
    · rintro ⟨lst, hmem, hnot⟩
      exact absurd ((moduleListCheck_ok_iff mods).mp hc lst hmem) hnot
  · constructor
    · intro _; exact (moduleListCheck_err_iff mods).mp hc
    · intro _; trivial

/-- Concrete evaluation: a single empty module record makes verification
fail with the not-loaded error. -/
theorem is_module_loaded_notloaded_iff_witness :
    is_module_loaded (constConn (.ok [ ([] : List String) ]) (.ok .Okay) (.ok "") (.ok 0) (.ok ())) =
      .err .MCaptchaRedisModuleIsNotLoaded :=
  (is_module_loaded_notloaded_iff
      (constConn (.ok [ ([] : List String) ]) (.ok .Okay) (.ok "") (.ok 0) (.ok ())) [ ([] : List String) ] rfl).mpr
    ⟨[], by simp, by simp⟩

/-- C9: when the module listing decodes to zero records, the module
check passes vacuously: verification proceeds directly to the command
checks, and the absence of records never yields
`MCaptchaRedisModuleIsNotLoaded`. -/
theorem is_module_loaded_empty_modules (c : RedisConnection)
    (h : c.execVecVecString ⟨"MODULE", ["LIST"]⟩ = .ok []) :
    is_module_loaded c =
        commandsCheck c [ADD_VISITOR, ADD_CAPTCHA, DEL, CAPTCHA_EXISTS, GET] ∧
      (is_module_loaded c = .ok () ∨ is_module_loaded c = .panic ∨
        ∃ name, is_module_loaded c =
          .err (.MCaptchaRediSModuleCommandNotFound name)) := by
  have heq : is_module_loaded c =
      commandsCheck c [ADD_VISITOR, ADD_CAPTCHA, DEL, CAPTCHA_EXISTS, GET] :=
    (is_module_loaded_eq c [] h).trans rfl
  refine ⟨heq, ?_⟩
  rw [heq]
  cases hcc : commandsCheck c [ADD_VISITOR, ADD_CAPTCHA, DEL, CAPTCHA_EXISTS, GET] with
  | ok u => cases u; exact Or.inl rfl
  | err e =>
    obtain ⟨name, _, he⟩ := commandsCheck_err_shape c _ e hcc
    exact Or.inr (Or.inr ⟨name, by rw [he]⟩)
  | panic => exact Or.inr (Or.inl rfl)

/-- Concrete evaluation: an empty module listing with benign command
responses verifies successfully. -/
theorem is_module_loaded_empty_modules_witness :
    is_module_loaded (constConn (.ok []) (.ok .Okay) (.ok "") (.ok 0) (.ok ())) =
      .ok () :=
  ((is_module_loaded_empty_modules
      (constConn (.ok []) (.ok .Okay) (.ok "") (.ok 0) (.ok ())) rfl).1).trans rfl

/-- C10: a transport or decode failure of the MODULE LIST query or of a
COMMAND INFO query during capability verification panics (the result is
unwrapped) instead of being returned; the returned error results of
`is_module_loaded` are only the two capability errors. -/
theorem is_module_loaded_transport_panics (c : RedisConnection)
    (e : CaptchaError) :
    (c.execVecVecString ⟨"MODULE", ["LIST"]⟩ = .error e →
      is_module_loaded c = .panic) ∧
    (∀ cmd rest, c.execValue ⟨"COMMAND", ["INFO", cmd]⟩ = .error e →
      commandsCheck c (cmd :: rest) = .panic) ∧
    (∀ r, is_module_loaded c = .err r →
      r = .MCaptchaRedisModuleIsNotLoaded ∨
        ∃ name, r = .MCaptchaRediSModuleCommandNotFound name) :=
  ⟨fun h => is_module_loaded_panic_of_list_error c e h,
   fun cmd rest h => commandsCheck_cons_panic c cmd rest e h,
   fun r h => is_module_loaded_err_cases c r h⟩

/-- Concrete evaluation: a failing MODULE LIST query makes verification
panic rather than return an error. -/
theorem is_module_loaded_transport_panics_witness :
    is_module_loaded errConn = .panic :=
  (is_module_loaded_transport_panics errConn (.StoreError "boom")).1 rfl

/-- C3: with the module check passing and the store answering every
COMMAND INFO query with the value `f cmd`, capability verification
succeeds exactly when none of the five catalog command responses is a
`Bulk` sequence whose popped last element is `Nil`, and it fails with
`MCaptchaRediSModuleCommandNotFound name` exactly when `name` is the
first of the five (checked in order `ADD_VISITOR, ADD_CAPTCHA, DEL,
CAPTCHA_EXISTS, GET`) whose response has that shape. -/
theorem command_catalog_check (c : RedisConnection)
    (mods : List (List String)) (f : String → Value)
    (hm : c.execVecVecString ⟨"MODULE", ["LIST"]⟩ = .ok mods)
    (hmods : ∀ lst ∈ mods, MODULE_NAME ∈ lst)
    (hf : ∀ s, c.execValue ⟨"COMMAND", ["INFO", s]⟩ = .ok (f s)) :
    (is_module_loaded c = .ok () ↔
      ∀ cmd ∈ [ADD_VISITOR, ADD_CAPTCHA, DEL, CAPTCHA_EXISTS, GET],
        popIsNil (f cmd) = false) ∧
    (∀ name,
      is_module_loaded c = .err (.MCaptchaRediSModuleCommandNotFound name) ↔
      ∃ l₁ l₂,
        [ADD_VISITOR, ADD_CAPTCHA, DEL, CAPTCHA_EXISTS, GET] = l₁ ++ name :: l₂ ∧
          (∀ cmd ∈ l₁, popIsNil (f cmd) = false) ∧ popIsNil (f name) = true) := by
  have heq : is_module_loaded c =
      commandsCheck c [ADD_VISITOR, ADD_CAPTCHA, DEL, CAPTCHA_EXISTS, GET] := by
    rw [is_module_loaded_eq c mods hm]
    rcases moduleListCheck_cases mods with hc | hc
    · rw [hc]
    · obtain ⟨lst, hl, hn⟩ := (moduleListCheck_err_iff mods).mp hc
      exact absurd (hmods lst hl) hn
  rw [heq, commandsCheck_eq_find c f hf]
  constructor
  · cases hfind : List.find? (fun s => popIsNil (f s))
        [ADD_VISITOR, ADD_CAPTCHA, DEL, CAPTCHA_EXISTS, GET] with
    | none =>
      simp only [hfind]
      constructor
      · intro _ cmd hcmd
        have hx := List.find?_eq_none.mp hfind cmd hcmd
        simpa using hx
      · intro _; trivial
    | some a =>
      simp only [hfind]
      constructor
      · intro hcontra; exact Outcome.noConfusion hcontra
      · intro hall
        have hpa := List.find?_some hfind
        rw [hall a (List.mem_of_find?_eq_some hfind)] at hpa
        exact Bool.noConfusion hpa
  · intro name
    cases hfind : List.find? (fun s => popIsNil (f s))
        [ADD_VISITOR, ADD_CAPTCHA, DEL, CAPTCHA_EXISTS, GET] with
    | none =>
      simp only [hfind]
      constructor
      · intro hcontra; exact Outcome.noConfusion hcontra
      · rintro ⟨l₁, l₂, hL, _, hpa⟩
        have hx := List.find?_eq_none.mp hfind name (by rw [hL]; simp)
        simp [hpa] at hx
    | some a =>
      simp only [hfind]
      constructor
      · intro h
        injection h with h2
        injection h2 with h3
        subst h3
        exact (find?_first_iff (fun s => popIsNil (f s)) _ a).mp hfind
      · intro hex
        have hsome :=
          (find?_first_iff (fun s => popIsNil (f s)) _ name).mpr hex
        rw [hfind] at hsome
        injection hsome with h4
        rw [h4]

/-- Concrete evaluation: if every COMMAND INFO response is a Bulk ending
in Nil, verification reports the first catalog command as missing. -/
theorem command_catalog_check_witness :
    is_module_loaded
        (constConn (.ok [ [ MODULE_NAME ] ]) (.ok (.Bulk [.Nil])) (.ok "")
          (.ok 0) (.ok ())) =
      .err (.MCaptchaRediSModuleCommandNotFound ADD_VISITOR) :=
  ((command_catalog_check
        (constConn (.ok [ [ MODULE_NAME ] ]) (.ok (.Bulk [.Nil])) (.ok "")
          (.ok 0) (.ok ()))
        [ [ MODULE_NAME ] ] (fun _ => .Bulk [.Nil]) rfl (by decide)
        (fun s => rfl)).2 ADD_VISITOR).mpr
    ⟨[], [ADD_CAPTCHA, DEL, CAPTCHA_EXISTS, GET], rfl, by simp, rfl⟩

/-- C4 fails on the code: at a concrete store response whose string
payload does not parse as a structured result, `add_visitor` panics (the
`.unwrap()` of `serde_json::from_str`) instead of returning the
`DeserializationError` error to the caller. -/
theorem add_visitor_deserialization_counterexample :
    add_visitor (constConn (.ok []) (.ok .Okay) (.ok "not json") (.ok 0) (.ok ()))
        (fun _ => none) ⟨"x"⟩ = .panic ∧
      add_visitor (constConn (.ok []) (.ok .Okay) (.ok "not json") (.ok 0) (.ok ()))
        (fun _ => none) ⟨"x"⟩ ≠ .err .DeserializationError := by
  exact ⟨rfl, fun hcontra => Outcome.noConfusion hcontra⟩

/-- C4 (amended): for every call to `add_visitor` in which the store
returns a string payload that does not parse as the structured
`AddVisitorResult`, the call panics on the unwrap of the parse — it does
not return `Ok` and returns no error to the caller. -/
theorem add_visitor_parse_failure_panics (c : RedisConnection)
    (from_str : String → Option AddVisitorResult) (msg : AddVisitor)
    (res : String)
    (h1 : c.execString ⟨ADD_VISITOR, [msg.id]⟩ = .ok res)
    (h2 : from_str res = none) :
    add_visitor c from_str msg = .panic := by
  simp [add_visitor, h1, h2]

/-- Concrete evaluation of the parse-failure panic. -/
theorem add_visitor_parse_failure_panics_witness :
    add_visitor (constConn (.ok []) (.ok .Okay) (.ok "oops") (.ok 0) (.ok ()))
      (fun _ => none) ⟨"y"⟩ = .panic :=
  add_visitor_parse_failure_panics
    (constConn (.ok []) (.ok .Okay) (.ok "oops") (.ok 0) (.ok ()))
    (fun _ => none) ⟨"y"⟩ "oops" rfl rfl

/-- C5 fails on the code: at a concrete input on which the store reports
a payload with nothing parseable, `add_visitor` panics — it does not
produce the claimed absence result `Ok(None)`. -/
theorem add_visitor_absence_counterexample :
    add_visitor (constConn (.ok []) (.ok .Okay) (.ok "") (.ok 0) (.ok ()))
        (fun _ => none) ⟨"z"⟩ ≠ .ok none ∧
      add_visitor (constConn (.ok []) (.ok .Okay) (.ok "") (.ok 0) (.ok ()))
        (fun _ => none) ⟨"z"⟩ = .panic :=
  ⟨fun hcontra => Outcome.noConfusion hcontra, rfl⟩

/-- C5 (amended): `add_visitor` never returns the absence result
`Ok(None)`: every call either propagates an error, panics on an
unparseable payload, or returns `Ok(Some(result))`. -/
theorem add_visitor_never_none (c : RedisConnection)
    (from_str : String → Option AddVisitorResult) (msg : AddVisitor) :
    (∃ e, add_visitor c from_str msg = .err e) ∨
      add_visitor c from_str msg = .panic ∨
      ∃ r, add_visitor c from_str msg = .ok (some r) := by
  cases h : c.execString ⟨ADD_VISITOR, [msg.id]⟩ with
  | error e => exact Or.inl ⟨e, by simp [add_visitor, h]⟩
  | ok res =>
    cases h2 : from_str res with
    | none => exact Or.inr (Or.inl (by simp [add_visitor, h, h2]))
    | some r => exact Or.inr (Or.inr ⟨r, by simp [add_visitor, h, h2]⟩)

theorem mcaptcha_new_ok (conn : RedisConnection) :
    MCaptchaRedis.new (.ok conn) =
      match is_module_loaded conn with
      | .panic => .panic
      | .err e => .err e
      | .ok _ => .ok ⟨conn⟩ := rfl

/-- C6: `MCaptchaRedis::new` returns `Ok` exactly when the underlying
connection was established and capability verification completed
successfully on the constructed client; a `ConnectionError` from the
connection step is propagated, and a verification failure propagates one
of the two capability errors. -/
theorem mcaptcha_redis_new_spec
    (redis_new : Except CaptchaError RedisConnection) :
    (∀ m : MCaptchaRedis, MCaptchaRedis.new redis_new = .ok m ↔
      (redis_new = .ok m.redis ∧ is_module_loaded m.get_client = .ok ())) ∧
    (∀ d, redis_new = .error (.ConnectionError d) →
      MCaptchaRedis.new redis_new = .err (.ConnectionError d)) ∧
    (∀ conn e, redis_new = .ok conn → is_module_loaded conn = .err e →
      MCaptchaRedis.new redis_new = .err e ∧
        (e = .MCaptchaRedisModuleIsNotLoaded ∨
          ∃ name, e = .MCaptchaRediSModuleCommandNotFound name)) := by
  cases redis_new with
  | error e0 =>
    refine ⟨fun m => ?_, fun d hd => ?_, fun conn e hc _ => ?_⟩
    · constructor
      · intro hcontra
        exact Outcome.noConfusion hcontra
      · rintro ⟨hcontra, _⟩
        exact Except.noConfusion hcontra
    · injection hd with hd2
      subst hd2
      rfl
    · exact Except.noConfusion hc
  | ok conn0 =>
    refine ⟨fun m => ?_, fun d hd => Except.noConfusion hd,
      fun conn e hc hil => ?_⟩
    · rw [mcaptcha_new_ok conn0]
      cases hness : is_module_loaded conn0 with
      | ok u =>
        cases u
        constructor
        · intro hok
          injection hok with hok2
          rw [← hok2]
          exact ⟨rfl, hness⟩
        · rintro ⟨h1, _⟩
          injection h1 with h12
          rw [h12]
      | err e =>
        constructor
        · intro hcontra; exact Outcome.noConfusion hcontra
        · rintro ⟨h1, h2⟩
          injection h1 with h12
          simp only [MCaptchaRedis.get_client] at h2
          rw [← h12, hness] at h2
          exact Outcome.noConfusion h2
      | panic =>
        constructor
        · intro hcontra; exact Outcome.noConfusion hcontra
        · rintro ⟨h1, h2⟩
          injection h1 with h12
          simp only [MCaptchaRedis.get_client] at h2
          rw [← h12, hness] at h2
          exact Outcome.noConfusion h2
    · injection hc with hc2
      subst hc2
      refine ⟨?_, is_module_loaded_err_cases _ _ hil⟩
      rw [mcaptcha_new_ok conn0, hil]

/-- Concrete evaluations of factory construction: a refused connection
propagates its error; a verified store constructs successfully. -/
theorem mcaptcha_redis_new_spec_witness :
    MCaptchaRedis.new (.error (.ConnectionError "refused")) =
        .err (.ConnectionError "refused") ∧
      MCaptchaRedis.new (.ok okConn) = .ok ⟨okConn⟩ :=
  ⟨(mcaptcha_redis_new_spec (.error (.ConnectionError "refused"))).2.1
      "refused" rfl,
   ((mcaptcha_redis_new_spec (.ok okConn)).1 ⟨okConn⟩).mpr ⟨rfl, rfl⟩⟩

/-- C7: each of the five domain wrappers propagates a transport/store
failure (`StoreError`, wrapping the error detail of the transport) of its
single issued command unchanged to the caller, with no retry and no
recovery. -/
theorem wrappers_propagate_store_error (c : RedisConnection)
    (from_str : String → Option AddVisitorResult)
    (to_string : MCaptcha → String) (msg : AddSite) (id d : String) :
    (c.execString ⟨ADD_VISITOR, [id]⟩ = .error (.StoreError d) →
      add_visitor c from_str ⟨id⟩ = .err (.StoreError d)) ∧
    (c.execUnit ⟨ADD_CAPTCHA, [msg.id, to_string msg.mcaptcha]⟩ =
        .error (.StoreError d) →
      add_mcaptcha c to_string msg = .error (.StoreError d)) ∧
    (c.execUsize ⟨CAPTCHA_EXISTS, [id]⟩ = .error (.StoreError d) →
      check_captcha_exists c id = ([], .error (.StoreError d))) ∧
    (c.execUnit ⟨DEL, [id]⟩ = .error (.StoreError d) →
      delete_captcha c id = .error (.StoreError d)) ∧
    (c.execUsize ⟨GET, [id]⟩ = .error (.StoreError d) →
      get_visitors c id = .error (.StoreError d)) := by
  refine ⟨fun h => ?_, fun h => ?_, fun h => ?_, fun h => ?_, fun h => ?_⟩
  · simp [add_visitor, h]
  · simp [add_mcaptcha, h]
  · simp [check_captcha_exists, h]
  · simp [delete_captcha, h]
  · simp [get_visitors, h]

/-- Concrete evaluations: against a store whose every command fails with
`StoreError "boom"`, each wrapper returns exactly that error. -/
theorem wrappers_propagate_store_error_witness :
    add_visitor errConn (fun _ => none) ⟨"i"⟩ = .err (.StoreError "boom") ∧
    add_mcaptcha errConn (fun m => m.config) ⟨"i", ⟨"cfg"⟩⟩ =
        .error (.StoreError "boom") ∧
    check_captcha_exists errConn "i" = ([], .error (.StoreError "boom")) ∧
    delete_captcha errConn "i" = .error (.StoreError "boom") ∧
    get_visitors errConn "i" = .error (.StoreError "boom") :=
  ⟨(wrappers_propagate_store_error errConn (fun _ => none) (fun m => m.config)
      ⟨"i", ⟨"cfg"⟩⟩ "i" "boom").1 rfl,
   (wrappers_propagate_store_error errConn (fun _ => none) (fun m => m.config)
      ⟨"i", ⟨"cfg"⟩⟩ "i" "boom").2.1 rfl,
   (wrappers_propagate_store_error errConn (fun _ => none) (fun m => m.config)
      ⟨"i", ⟨"cfg"⟩⟩ "i" "boom").2.2.1 rfl,
   (wrappers_propagate_store_error errConn (fun _ => none) (fun m => m.config)
      ⟨"i", ⟨"cfg"⟩⟩ "i" "boom").2.2.2.1 rfl,
   (wrappers_propagate_store_error errConn (fun _ => none) (fun m => m.config)
      ⟨"i", ⟨"cfg"⟩⟩ "i" "boom").2.2.2.2 rfl⟩

/-- C8: the five wire command names are the exact case-sensitive protocol
strings, and each wrapper consults the store only at its own single
command carrying the identifier argument (for registration: identifier
plus serialized config payload) — two stores agreeing on that one
command give the wrapper identical results. -/
theorem wrapper_commands_exact (from_str : String → Option AddVisitorResult)
    (to_string : MCaptcha → String) :
    GET = "MCAPTCHA_CACHE.GET" ∧
    ADD_VISITOR = "MCAPTCHA_CACHE.ADD_VISITOR" ∧
    DEL = "MCAPTCHA_CACHE.DELETE_CAPTCHA" ∧
    ADD_CAPTCHA = "MCAPTCHA_CACHE.ADD_CAPTCHA" ∧
    CAPTCHA_EXISTS = "MCAPTCHA_CACHE.CAPTCHA_EXISTS" ∧
    (∀ c₁ c₂ : RedisConnection, ∀ id : String,
      c₁.execString ⟨ADD_VISITOR, [id]⟩ = c₂.execString ⟨ADD_VISITOR, [id]⟩ →
        add_visitor c₁ from_str ⟨id⟩ = add_visitor c₂ from_str ⟨id⟩) ∧
    (∀ c₁ c₂ : RedisConnection, ∀ msg : AddSite,
      c₁.execUnit ⟨ADD_CAPTCHA, [msg.id, to_string msg.mcaptcha]⟩ =
          c₂.execUnit ⟨ADD_CAPTCHA, [msg.id, to_string msg.mcaptcha]⟩ →
        add_mcaptcha c₁ to_string msg = add_mcaptcha c₂ to_string msg) ∧
    (∀ c₁ c₂ : RedisConnection, ∀ id : String,
      c₁.execUsize ⟨CAPTCHA_EXISTS, [id]⟩ = c₂.execUsize ⟨CAPTCHA_EXISTS, [id]⟩ →
        check_captcha_exists c₁ id = check_captcha_exists c₂ id) ∧
    (∀ c₁ c₂ : RedisConnection, ∀ id : String,
      c₁.execUnit ⟨DEL, [id]⟩ = c₂.execUnit ⟨DEL, [id]⟩ →
        delete_captcha c₁ id = delete_captcha c₂ id) ∧
    (∀ c₁ c₂ : RedisConnection, ∀ id : String,
      c₁.execUsize ⟨GET, [id]⟩ = c₂.execUsize ⟨GET, [id]⟩ →
        get_visitors c₁ id = get_visitors c₂ id) := by
  refine ⟨rfl, rfl, rfl, rfl, rfl, ?_, ?_, ?_, ?_, ?_⟩
  · intro c₁ c₂ id h
    simp only [add_visitor, h]
  · intro c₁ c₂ msg h
    simp only [add_mcaptcha, h]
  · intro c₁ c₂ id h
    simp only [check_captcha_exists, h]
  · intro c₁ c₂ id h
    simp only [delete_captcha, h]
  · intro c₁ c₂ id h
    simp only [get_visitors, h]

/-- Concrete evaluation: two stores that differ everywhere except on the
add-visitor command produce the same `add_visitor` result, and the
command-name constants evaluate to the protocol strings. -/
theorem wrapper_commands_exact_witness :
    GET = "MCAPTCHA_CACHE.GET" ∧
      add_visitor okConn (fun _ => none) ⟨"i"⟩ =
        add_visitor (constConn (.error (.StoreError "x")) (.ok .Nil) (.ok "")
          (.ok 7) (.ok ())) (fun _ => none) ⟨"i"⟩ :=
  ⟨(wrapper_commands_exact (fun _ => none) (fun m => m.config)).1,
   (wrapper_commands_exact (fun _ => none) (fun m => m.config)).2.2.2.2.2.1
     okConn
     (constConn (.error (.StoreError "x")) (.ok .Nil) (.ok "") (.ok 7) (.ok ()))
     "i" rfl⟩

end Mcaptcha
